import Mathlib

/-!
Verification development for the Financial Metrics & Diagnosis Engine and the
Portfolio Exposure Aggregator of the computational-finance repository.

Python floats are embedded as rationals; `None` becomes `Option.none`;
a Python exception (TypeError / ZeroDivisionError) is embedded as
`Except.error ()`.  Each definition mirrors one function of
`backend/stocks/analytics.py`, `backend/stocks/portfolio_analytics.py` or the
analysis section of `backend/stocks/management/commands/fetch_data.py`.
-/

/-- Mirrors the dataclass FinancialMetricsInput of analytics.py: required
current-period figures are plain rationals, the optional prior-period figures
are Options (absence is Python None, distinct from zero). -/
structure FinancialMetricsInput where
  revenue : ℚ
  operating_income : ℚ
  net_income : ℚ
  ebit : ℚ
  interest_expense : ℚ
  depreciation : ℚ
  total_assets : ℚ
  total_equity : ℚ
  current_assets : ℚ
  current_liabilities : ℚ
  inventory : ℚ
  retained_earnings : ℚ
  long_term_debt : ℚ
  operating_cf : ℚ
  investing_cf : ℚ
  capex : ℚ
  stock_price : ℚ
  market_cap : ℚ
  beta : ℚ
  prev_revenue : Option ℚ
  prev_operating_income : Option ℚ
  prev_net_income : Option ℚ
  prev_total_assets : Option ℚ
  prev_current_assets : Option ℚ
  prev_current_liabilities : Option ℚ
  prev_inventory : Option ℚ
  prev_long_term_debt : Option ℚ
  sector : String

/-- FinancialCalculator.calculate_altman_z_score.  The Python guard
`not total_assets or not current_liabilities` is falsiness, i.e. equality
with zero. -/
def calculate_altman_z_score (d : FinancialMetricsInput) : Option ℚ :=
  if d.total_assets = 0 ∨ d.current_liabilities = 0 then none
  else
    let working_capital := d.current_assets - d.current_liabilities
    let total_liabilities := d.long_term_debt + d.current_liabilities
    let A := working_capital / d.total_assets
    let B := d.retained_earnings / d.total_assets
    let C := d.ebit / d.total_assets
    let D := if 0 < total_liabilities then d.market_cap / total_liabilities else 0
    let E := d.revenue / d.total_assets
    some (1.2 * A + 1.4 * B + 3.3 * C + 0.6 * D + 1.0 * E)

/-- FinancialCalculator.classify_altman_zone. -/
def classify_altman_zone (z : ℚ) : String :=
  if z < 1.81 then "distress"
  else if z < 2.99 then "grey"
  else "safe"

/-- FinancialCalculator.calculate_interest_coverage. -/
def calculate_interest_coverage (d : FinancialMetricsInput) : Option ℚ :=
  let interest := |d.interest_expense|
  if interest = 0 then none
  else some (d.ebit / interest)

/-- FinancialCalculator.calculate_accruals_ratio (the source name ends in a
token the verification tooling reserves, hence the shortened Lean name). -/
def calculate_accruals (d : FinancialMetricsInput) : ℚ :=
  if d.total_assets = 0 then 0
  else (d.net_income - d.operating_cf) / d.total_assets

/-- FinancialCalculator.calculate_implied_growth_rate; the two rate arguments
default to 0.01 and 0.06 at the call site in fetch_data.py. -/
def calculate_implied_growth_rate (d : FinancialMetricsInput)
    (risk_free_rate : ℚ) (market_risk_premium : ℚ) : Option ℚ :=
  if d.market_cap ≤ 0 then none
  else
    let cost_of_equity := risk_free_rate + d.beta * market_risk_premium
    let fcf := d.operating_cf + d.investing_cf
    if fcf ≤ 0 then none
    else some ((cost_of_equity - fcf / d.market_cap) * 100)

/-- FinancialCalculator.calculate_reality_gap. -/
def calculate_reality_gap (implied_growth actual_growth : Option ℚ) : Option ℚ :=
  match implied_growth, actual_growth with
  | some i, some a => some (i - a)
  | _, _ => none

/-- One scoring step of the Piotroski loop: on a satisfied condition the score
is incremented and the reason string appended, otherwise the accumulator is
returned unchanged. -/
def scoreStep (c : Prop) [Decidable c] (reason : String)
    (acc : Int × List String) : Int × List String :=
  if c then (acc.1 + 1, acc.2 ++ [reason]) else acc

/-- FinancialCalculator.calculate_piotroski_f_score.  A Python exception
(TypeError on arithmetic with None, or ZeroDivisionError) is `Except.error ()`.
Guards written `x if cond else 0` in the source evaluate the division only
when `cond` is truthy, which for a present float means nonzero. -/
def calculate_piotroski_f_score (d : FinancialMetricsInput) :
    Except Unit (Int × List String) :=
  match d.prev_total_assets with
  | none => Except.ok (0, ["データ不足"])
  | some pta => do
    let roa := if d.total_assets ≠ 0 then d.net_income / d.total_assets else (0 : ℚ)
    let prev_roa ← if pta ≠ 0 then
        (match d.prev_net_income with
         | none => Except.error ()
         | some pni => Except.ok (pni / pta))
      else Except.ok (0 : ℚ)
    let acc : Int × List String := (0, [])
    let acc := scoreStep (0 < d.net_income) "純利益黒字" acc
    let acc := scoreStep (0 < d.operating_cf) "営業CF黒字" acc
    let acc := scoreStep (prev_roa < roa) "ROA改善" acc
    let acc := scoreStep (d.net_income < d.operating_cf) "CF>純利益" acc
    let lev := if d.total_assets ≠ 0 then d.long_term_debt / d.total_assets else (0 : ℚ)
    let prev_lev ← match d.prev_long_term_debt with
      | some pltd => if pta = 0 then Except.error () else Except.ok (pltd / pta)
      | none => Except.ok (0 : ℚ)
    let acc := scoreStep (lev ≤ prev_lev) "レバレッジ改善" acc
    let curr_r := if d.current_liabilities ≠ 0 then
        d.current_assets / d.current_liabilities else (0 : ℚ)
    let prev_curr_r ← match d.prev_current_liabilities with
      | some pcl =>
          if pcl ≠ 0 then
            (match d.prev_current_assets with
             | none => Except.error ()
             | some pca => Except.ok (pca / pcl))
          else Except.ok (0 : ℚ)
      | none => Except.ok (0 : ℚ)
    let acc := scoreStep (prev_curr_r < curr_r) "流動比率改善" acc
    let acc := scoreStep True "希薄化なし(仮)" acc
    let margin := if d.revenue ≠ 0 then d.operating_income / d.revenue else (0 : ℚ)
    let prev_margin ← match d.prev_revenue with
      | some pr =>
          if pr ≠ 0 then
            (match d.prev_operating_income with
             | none => Except.error ()
             | some poi => Except.ok (poi / pr))
          else Except.ok (0 : ℚ)
      | none => Except.ok (0 : ℚ)
    let acc := scoreStep (prev_margin < margin) "マージン改善" acc
    let turnover := if d.total_assets ≠ 0 then d.revenue / d.total_assets else (0 : ℚ)
    let prev_turnover ← if pta ≠ 0 then
        (match d.prev_revenue with
         | none => Except.error ()
         | some pr => Except.ok (pr / pta))
      else Except.ok (0 : ℚ)
    let acc := scoreStep (prev_turnover < turnover) "回転率改善" acc
    return acc

/-- FinancialCalculator.diagnose_corporate_state. -/
def diagnose_corporate_state (f_score : Int) (z_zone : String) (has_fcf : Bool) : String :=
  if z_zone = "distress" then "Financial Distress"
  else if f_score ≤ 3 then "Deteriorating"
  else if 5 ≤ f_score then
    (if has_fcf then "Cash Generator" else "High Growth")
  else "Neutral"

/-- FinancialCalculator.diagnose_expectation. -/
def diagnose_expectation (gap implied_rev_growth : Option ℚ) (has_fcf : Bool) : String :=
  if !has_fcf && (match implied_rev_growth with
                  | some g => decide (25 < g)
                  | none => false) then "Single Engine"
  else
    match gap with
    | some g =>
        if 20 < g then "Overheated"
        else if g < -10 then "Underestimated"
        else if 10 < g then "Optimistic"
        else "Reasonable"
    | none => "Reasonable"

/-- FinancialCalculator.assess_risks: the mutable accumulation of the risk list
and level is unfolded into successive rebindings in source order. -/
def assess_risks (z_zone : String) (f_score : Int) (accruals : Option ℚ) :
    String × List String :=
  let risks : List String := []
  let level := "Low"
  let step1 := if z_zone = "distress" then (risks ++ ["Bankruptcy Risk"], "Critical")
               else (risks, level)
  let step2 := if f_score ≤ 3 then
                 (step1.1 ++ ["Weak Fundamentals"],
                  if step1.2 ≠ "Critical" then "High" else step1.2)
               else step1
  let step3 := if (match accruals with
                   | some a => decide ((0.15 : ℚ) < a)
                   | none => false) then
                 (step2.1 ++ ["Low Earnings Quality"],
                  if step2.2 = "Low" then "Medium" else step2.2)
               else step2
  (step3.2, step3.1)

/-- Precomputed ratios feeding the analysis section of fetch_data.py
(lines 250 to 270): the downstream classification consumes exactly these
values, so quantifying over this record covers every analyzed input. -/
structure RatioSet where
  f_score : Int
  z_score : Option ℚ
  accruals : ℚ
  implied_g_fcf : Option ℚ
  implied_g_rev : Option ℚ
  actual_g_rev : Option ℚ

/-- Lines 273 to 322 of fetch_data.py: the preliminary status block.  Only the
resulting status string and is_good_buy flag survive (its summary fragments
are discarded when the parts list is reset at line 346). -/
def statusBlock (r : RatioSet) (gap : Option ℚ) : String × Bool :=
  let status := "Hold"
  let good := false
  let status := match r.z_score with
    | some z => if classify_altman_zone z = "distress" then "Sell" else status
    | none => status
  if 6 ≤ r.f_score then
    (if status ≠ "Sell" then
      (if (match r.implied_g_fcf with
           | some g => decide (g < 10)
           | none => false) then ("Strong Buy", true)
       else if (match r.implied_g_fcf, r.implied_g_rev with
                | none, some g => decide (g < 20)
                | _, _ => false) then ("Buy", true)
       else if (match gap with
                | some g => decide (g < -5)
                | none => false) then ("Buy", true)
       else ("Watch", good))
     else (status, good))
  else if r.f_score ≤ 3 then ("Sell", good)
  else (status, good)

/-- Lines 326 to 328 of fetch_data.py: the zone actually fed to the state
diagnosis and the risk assessment.  Python truthiness means that a None or an
exactly-zero Z-Score both fall back to grey. -/
def zZoneUsed (z_score : Option ℚ) : String :=
  match z_score with
  | some z => if z ≠ 0 then classify_altman_zone z else "grey"
  | none => "grey"

/-- Lines 345 to 392 of fetch_data.py: the final verdict cascade.  The first
matching rule wins; rule 1 does not touch the incoming is_good_buy flag. -/
def verdictCascade (state expectation risk_level risk_details : String)
    (gap : Option ℚ) (good : Bool) : String × Bool × List String :=
  if risk_level = "Critical" then
    ("Avoid", good, ["⚠️回避推奨: " ++ risk_details])
  else if state = "Deteriorating" then
    ("Sell", good, ["財務状態が悪化しており売り推奨"])
  else if (state = "Cash Generator" ∨ state = "High Growth") ∧
          expectation = "Underestimated" then
    ("Strong Buy", true,
     ["【S級】実力に対し著しく過小評価(乖離" ++ toString (gap.getD 0) ++ "%)"])
  else if expectation = "Overheated" ∨ expectation = "Optimistic" then
    ("Watch", good, ["優良企業だが過熱感あり。押し目待ち"])
  else if state = "High Growth" ∧ expectation = "Single Engine" ∧
          risk_level = "Low" then
    ("Buy (Spec)", true, ["高成長への期待買い(ボラティリティ注意)"])
  else if (state = "Cash Generator" ∨ state = "High Growth") ∧
          risk_level ≠ "High" then
    ("Buy", true, ["好財務かつ期待値も妥当"])
  else ("Hold", good, ["特筆すべき材料なし"])

/-- Fields of the stored AnalysisResult produced by one analysis run, plus the
intermediate zone and gap values, kept so that properties about them can be
stated. -/
structure AnalysisOutcome where
  status : String
  is_good_buy : Bool
  state : String
  expectation_structure : String
  risk_level : String
  risk_details : String
  ai_summary : String
  z_zone : String
  gap : Option ℚ

/-- The classification pipeline of fetch_data.py from the computed ratios to
the stored verdict (lines 270 to 421). -/
def analyze (r : RatioSet) : AnalysisOutcome :=
  let gap := calculate_reality_gap r.implied_g_rev r.actual_g_rev
  let sb := statusBlock r gap
  let has_fcf := r.implied_g_fcf.isSome
  let zz := zZoneUsed r.z_score
  let state := diagnose_corporate_state r.f_score zz has_fcf
  let expectation := diagnose_expectation gap r.implied_g_rev has_fcf
  let rk := assess_risks zz r.f_score (some r.accruals)
  let risk_details := String.intercalate ", " rk.2
  let v := verdictCascade state expectation rk.1 risk_details gap sb.2
  { status := v.1
    is_good_buy := v.2.1
    state := state
    expectation_structure := expectation
    risk_level := rk.1
    risk_details := risk_details
    ai_summary := String.intercalate "。" v.2.2
    z_zone := zz
    gap := gap }

/-- Line 325 of fetch_data.py: the has_fcf flag handed to both diagnosis
passes is the non-nullness of the FCF-implied growth rate. -/
def pipelineHasFcf (d : FinancialMetricsInput) : Bool :=
  (calculate_implied_growth_rate d 0.01 0.06).isSome

/-- Modelled from the spec: the TagDetector component is not among the
provided source files (only the AnalysisResult tag-field declarations and
their readers are present); section 4.3 of the spec defines tag_single_engine
as expectation_structure == "Single Engine". -/
def detect_tag_single_engine (expectation_structure : String) : Bool :=
  expectation_structure = "Single Engine"

/-- The tag_single_engine boolean stored alongside one analysis run, with the
detector modelled from the spec. -/
def storedTagSingleEngine (r : RatioSet) : Bool :=
  detect_tag_single_engine (analyze r).expectation_structure

/-- The eleven boolean character tags of an AnalysisResult row, as read by the
portfolio analyzer. -/
structure Tags where
  tag_safety_shield : Bool
  tag_cash_cow : Bool
  tag_quality_growth : Bool
  tag_institutional : Bool
  tag_single_engine : Bool
  tag_high_volatility : Bool
  tag_silent_improver : Bool
  tag_turnaround : Bool
  tag_zombie : Bool
  tag_accounting_risk : Bool
  tag_fragile : Bool

/-- The AnalysisResult fields the portfolio analyzer reads: a nullable stored
price and the tag booleans. -/
structure PortfolioAnalysisRow where
  stock_price : Option ℚ
  tags : Tags

/-- One PortfolioItem together with the latest analysis of its stock, if any
exists. -/
structure PortfolioItemIn where
  quantity : ℚ
  analysis : Option PortfolioAnalysisRow

/-- One collected holding: its computed market value and the tags of its
diagnosis. -/
structure Holding where
  market_value : ℚ
  tags : Tags

/-- The collection loop of PortfolioAnalyzer.analyze (lines 58 to 79): items
without an analysis are skipped outright; the price is
`float(analysis.stock_price or 0)` and market value is price times
quantity. -/
def collectHoldings (items : List PortfolioItemIn) : List Holding :=
  items.filterMap fun it =>
    it.analysis.map fun a =>
      { market_value := (a.stock_price.getD 0) * it.quantity, tags := a.tags }

/-- Sum of market values accumulated by the same loop. -/
def totalValue (hs : List Holding) : ℚ :=
  (hs.map fun h => h.market_value).sum

/-- Line 113: weight of a holding as a percentage of total value. -/
def weightOf (total : ℚ) (h : Holding) : ℚ :=
  h.market_value / total * 100

/-- Weighted exposure of the holdings selected by a predicate: the per-key
accumulation of the aggregation loop. -/
def exposureSum (total : ℚ) (hs : List Holding) (sel : Holding → Bool) : ℚ :=
  (hs.map fun h => if sel h then weightOf total h else 0).sum

/-- Lines 122 to 142: the category assigned to one holding, by the fixed
priority Risk, then Speculative, then Quality, then Safety, then Neutral. -/
def assignCat (t : Tags) : String :=
  if t.tag_zombie || t.tag_fragile || t.tag_accounting_risk then "Risk"
  else if t.tag_single_engine || t.tag_high_volatility || t.tag_turnaround then "Speculative"
  else if t.tag_quality_growth then "Quality"
  else if t.tag_safety_shield || t.tag_institutional || t.tag_cash_cow then "Safety"
  else "Neutral"

/-- The tag_exposure mapping, keys in the insertion order of the source dict
(lines 86 to 98). -/
def tagExposure (total : ℚ) (hs : List Holding) : List (String × ℚ) :=
  [("tag_safety_shield", exposureSum total hs fun h => h.tags.tag_safety_shield),
   ("tag_cash_cow", exposureSum total hs fun h => h.tags.tag_cash_cow),
   ("tag_quality_growth", exposureSum total hs fun h => h.tags.tag_quality_growth),
   ("tag_institutional", exposureSum total hs fun h => h.tags.tag_institutional),
   ("tag_single_engine", exposureSum total hs fun h => h.tags.tag_single_engine),
   ("tag_high_volatility", exposureSum total hs fun h => h.tags.tag_high_volatility),
   ("tag_silent_improver", exposureSum total hs fun h => h.tags.tag_silent_improver),
   ("tag_turnaround", exposureSum total hs fun h => h.tags.tag_turnaround),
   ("tag_zombie", exposureSum total hs fun h => h.tags.tag_zombie),
   ("tag_accounting_risk", exposureSum total hs fun h => h.tags.tag_accounting_risk),
   ("tag_fragile", exposureSum total hs fun h => h.tags.tag_fragile)]

/-- The category_exposure mapping, keys in the insertion order of the source
dict (lines 103 to 109). -/
def categoryExposure (total : ℚ) (hs : List Holding) : List (String × ℚ) :=
  [("Safety", exposureSum total hs fun h => decide (assignCat h.tags = "Safety")),
   ("Quality", exposureSum total hs fun h => decide (assignCat h.tags = "Quality")),
   ("Speculative", exposureSum total hs fun h => decide (assignCat h.tags = "Speculative")),
   ("Risk", exposureSum total hs fun h => decide (assignCat h.tags = "Risk")),
   ("Neutral", exposureSum total hs fun h => decide (assignCat h.tags = "Neutral"))]

/-- One narrative-dependency entry of the report. -/
structure NarrativeEntry where
  key : String
  label : String
  dependency_score : ℚ
  risk_scen : String

/-- Dict-style lookup with default 0, as `tag_exposure.get(tag, 0.0)`. -/
def lookupExposure (m : List (String × ℚ)) (k : String) : ℚ :=
  (m.lookup k).getD 0

/-- Lines 146 to 166: the four fixed narratives with their contributing tags
and weight multipliers, each score capped at 100. -/
def narrativeDependencies (te : List (String × ℚ)) : List NarrativeEntry :=
  [{ key := "LowRate", label := "低金利・金融緩和",
     dependency_score := min 100 ((lookupExposure te "tag_zombie" +
       lookupExposure te "tag_high_volatility" +
       lookupExposure te "tag_accounting_risk") * 1.2),
     risk_scen := "金利急騰 / 金融引き締め" },
   { key := "HighGrowth", label := "高成長の継続",
     dependency_score := min 100 ((lookupExposure te "tag_single_engine" +
       lookupExposure te "tag_fragile") * 1.5),
     risk_scen := "成長神話の崩壊 / マルチプル収縮" },
   { key := "EconomicExpansion", label := "景気拡大・信用環境良好",
     dependency_score := min 100 ((lookupExposure te "tag_turnaround" +
       lookupExposure te "tag_silent_improver") * 1.0),
     risk_scen := "景気後退 / リセッション" },
   { key := "QualityPreference", label := "クオリティ評価の継続",
     dependency_score := min 100 ((lookupExposure te "tag_quality_growth" +
       lookupExposure te "tag_institutional" +
       lookupExposure te "tag_cash_cow") * 0.5),
     risk_scen := "質の無視 / 投機的熱狂" }]

/-- Stable descending insertion used to mirror the stable Python sort of the
narrative list by dependency_score. -/
def insertByScoreDesc (x : NarrativeEntry) : List NarrativeEntry → List NarrativeEntry
  | [] => [x]
  | y :: ys => if y.dependency_score < x.dependency_score then x :: y :: ys
               else y :: insertByScoreDesc x ys

/-- Line 169: sort the narratives by dependency_score, highest first. -/
def sortByScoreDesc (l : List NarrativeEntry) : List NarrativeEntry :=
  l.foldr insertByScoreDesc []

/-- PortfolioAnalyzer._generate_summary: band selection by score with the
top-narrative refinements; the second argument of the source is unused
there. -/
def generateSummary (score : Int) (narratives : List NarrativeEntry) : String :=
  let top := narratives.head?
  if score < 40 then
    (match top with
     | some t =>
        if 50 < t.dependency_score then
          "危険水準です。あなたの資産は「" ++ t.label ++
            "」という前提に極端に依存しており、" ++ t.risk_scen ++
            "で崩壊する恐れがあります。"
        else "危険水準です。早急に「ゾンビ企業」や「前提崩壊リスク」の高い銘柄の整理を検討してください。"
     | none => "危険水準です。早急に「ゾンビ企業」や「前提崩壊リスク」の高い銘柄の整理を検討してください。")
  else if score < 60 then
    (match top with
     | some t =>
        if 40 < t.dependency_score then
          "注意が必要です。ポートフォリオの" ++ toString t.dependency_score ++
            "%が「" ++ t.label ++ "」に依存しています。" ++ t.risk_scen ++
            "への備えは十分ですか？"
        else "バランスが悪化しています。一部のリスク銘柄がポートフォリオ全体の足を引っ張っています。"
     | none => "バランスが悪化しています。一部のリスク銘柄がポートフォリオ全体の足を引っ張っています。")
  else if score < 80 then
    (match top with
     | some t =>
        if 30 < t.dependency_score then
          "概ね良好ですが、「" ++ t.label ++ "」への依存が見られます。" ++
            t.risk_scen ++ "が起きた場合のシナリオを想定しておきましょう。"
        else "バランスの取れたポートフォリオです。過度なリスクを取らず、安定した運用が期待できます。"
     | none => "バランスの取れたポートフォリオです。過度なリスクを取らず、安定した運用が期待できます。")
  else "極めて健全なポートフォリオです。防御力と質のバランスが黄金比に近く、特定の物語への過度な依存も見られません。"

/-- The portfolio exposure report. -/
structure Report where
  total_value : ℚ
  health_score : Int
  diagnosis_summary : String
  category_exposure : List (String × ℚ)
  tag_exposure : List (String × ℚ)
  narrative_analysis : List NarrativeEntry
  holdings : List Holding

/-- PortfolioAnalyzer._empty_result: the fixed degenerate report. -/
def emptyResult : Report :=
  { total_value := 0
    health_score := 0
    diagnosis_summary := "ポートフォリオが空です。銘柄を追加してください。"
    category_exposure := []
    tag_exposure := []
    narrative_analysis := []
    holdings := [] }

/-- PortfolioAnalyzer.analyze: collection, the zero-total early return, the
exposure aggregation, the narrative scores, the health score (Python int
truncation of a value already clamped to the interval from 0 to 100 is the
floor) and the summary. -/
def portfolioAnalyze (items : List PortfolioItemIn) : Report :=
  let hs := collectHoldings items
  let total := totalValue hs
  if total = 0 then emptyResult
  else
    let te := tagExposure total hs
    let ce := categoryExposure total hs
    let nd := sortByScoreDesc (narrativeDependencies te)
    let score : ℚ := 80 - lookupExposure ce "Risk" * 1.5
    let score := if 30 < lookupExposure ce "Speculative" then
        score - (lookupExposure ce "Speculative" - 30) * 0.5 else score
    let score := if 50 < lookupExposure ce "Safety" then score + 5 else score
    let score := if 30 < lookupExposure ce "Quality" then score + 5 else score
    let health : Int := ⌊max 0 (min 100 score)⌋
    { total_value := total
      health_score := health
      diagnosis_summary := generateSummary health nd
      category_exposure := ce
      tag_exposure := te
      narrative_analysis := nd
      holdings := hs }

/-- All-zero metrics input (beta 1, unknown sector, no prior period), used as
a base for the concrete example inputs below. -/
def baseInput : FinancialMetricsInput :=
  { revenue := 0, operating_income := 0, net_income := 0, ebit := 0,
    interest_expense := 0, depreciation := 0, total_assets := 0, total_equity := 0,
    current_assets := 0, current_liabilities := 0, inventory := 0,
    retained_earnings := 0, long_term_debt := 0, operating_cf := 0,
    investing_cf := 0, capex := 0, stock_price := 0, market_cap := 0, beta := 1,
    prev_revenue := none, prev_operating_income := none, prev_net_income := none,
    prev_total_assets := none, prev_current_assets := none,
    prev_current_liabilities := none, prev_inventory := none,
    prev_long_term_debt := none, sector := "Unknown" }

/-- The worked Z-Score scenario of the spec (section 8). -/
def zScenarioIn : FinancialMetricsInput :=
  { baseInput with
    revenue := 1000
    operating_income := 150
    net_income := 80
    total_assets := 900
    current_liabilities := 300
    long_term_debt := 100
    current_assets := 500
    retained_earnings := 200
    ebit := 160
    market_cap := 1200 }

/-- Prior period fully present but with prev_total_assets equal to zero and a
present prev_long_term_debt: the leverage step divides by zero. -/
def piotErrIn : FinancialMetricsInput :=
  { baseInput with
    revenue := 10
    operating_income := 2
    net_income := 1
    total_assets := 100
    current_assets := 5
    current_liabilities := 3
    long_term_debt := 4
    operating_cf := 2
    prev_revenue := some 9
    prev_operating_income := some 2
    prev_net_income := some 1
    prev_total_assets := some 0
    prev_current_assets := some 5
    prev_current_liabilities := some 3
    prev_inventory := some 1
    prev_long_term_debt := some 1 }

/-- The same input with a nonzero prior total assets: every step is defined. -/
def piotOkIn : FinancialMetricsInput :=
  { piotErrIn with prev_total_assets := some 50 }

/-- Nonzero (negative) interest expense with positive EBIT. -/
def icrIn : FinancialMetricsInput :=
  { baseInput with
    ebit := 12
    interest_expense := -4 }

/-- Positive free cash flow but a zero market cap. -/
def fcfNoCapIn : FinancialMetricsInput :=
  { baseInput with
    operating_cf := 10
    market_cap := 0 }

/-- Ratio values that put the analysis in the Critical risk band. -/
def criticalR : RatioSet :=
  { f_score := 8, z_score := some (-1), accruals := 0,
    implied_g_fcf := none, implied_g_rev := none, actual_g_rev := none }

/-- Ratio values with a computed Z-Score of exactly zero. -/
def zeroZR : RatioSet :=
  { criticalR with z_score := some 0 }

/-- All eleven tags cleared. -/
def noTags : Tags :=
  { tag_safety_shield := false, tag_cash_cow := false, tag_quality_growth := false,
    tag_institutional := false, tag_single_engine := false,
    tag_high_volatility := false, tag_silent_improver := false,
    tag_turnaround := false, tag_zombie := false, tag_accounting_risk := false,
    tag_fragile := false }

/-- A long position carrying the single-engine tag next to a short (negative
quantity) position: total value 100 but the long leg weighs 200 percent. -/
def shortItems : List PortfolioItemIn :=
  [{ quantity := 100,
     analysis := some { stock_price := some 2,
                        tags := { noTags with tag_single_engine := true } } },
   { quantity := -100, analysis := some { stock_price := some 1, tags := noTags } }]

/-- One ordinary quality holding. -/
def qualityItems : List PortfolioItemIn :=
  [{ quantity := 10,
     analysis := some { stock_price := some 5,
                        tags := { noTags with tag_quality_growth := true } } }]

/-- One item that has no analysis at all: it is skipped and the portfolio
total is zero. -/
def undiagnosedItems : List PortfolioItemIn :=
  [{ quantity := 5, analysis := none }]

lemma exceptBind_ok {ε α β : Type} (a : α) (f : α → Except ε β) :
    (Except.ok a : Except ε α) >>= f = f a := rfl

lemma exceptBind_err {ε α β : Type} (e : ε) (f : α → Except ε β) :
    (Except.error e : Except ε α) >>= f = Except.error e := rfl

lemma scoreStep_fst_bounds {lo hi : Int} (c : Prop) [Decidable c] (s : String)
    (acc : Int × List String) (h1 : lo ≤ acc.1) (h2 : acc.1 ≤ hi) :
    lo ≤ (scoreStep c s acc).1 ∧ (scoreStep c s acc).1 ≤ hi + 1 := by
  unfold scoreStep; split <;> constructor <;> omega

lemma nine_steps_bounds (c1 c2 c3 c4 c5 c6 c7 c8 c9 : Prop)
    [Decidable c1] [Decidable c2] [Decidable c3] [Decidable c4] [Decidable c5]
    [Decidable c6] [Decidable c7] [Decidable c8] [Decidable c9]
    (s1 s2 s3 s4 s5 s6 s7 s8 s9 : String) :
    0 ≤ (scoreStep c9 s9 (scoreStep c8 s8 (scoreStep c7 s7 (scoreStep c6 s6
      (scoreStep c5 s5 (scoreStep c4 s4 (scoreStep c3 s3 (scoreStep c2 s2
      (scoreStep c1 s1 ((0 : Int), ([] : List String))))))))))).1 ∧
    (scoreStep c9 s9 (scoreStep c8 s8 (scoreStep c7 s7 (scoreStep c6 s6
      (scoreStep c5 s5 (scoreStep c4 s4 (scoreStep c3 s3 (scoreStep c2 s2
      (scoreStep c1 s1 ((0 : Int), ([] : List String))))))))))).1 ≤ 9 := by
  obtain ⟨a1, b1⟩ := scoreStep_fst_bounds c1 s1 ((0 : Int), ([] : List String))
    (le_refl (0 : Int)) (le_refl (0 : Int))
  obtain ⟨a2, b2⟩ := scoreStep_fst_bounds c2 s2 _ a1 b1
  obtain ⟨a3, b3⟩ := scoreStep_fst_bounds c3 s3 _ a2 b2
  obtain ⟨a4, b4⟩ := scoreStep_fst_bounds c4 s4 _ a3 b3
  obtain ⟨a5, b5⟩ := scoreStep_fst_bounds c5 s5 _ a4 b4
  obtain ⟨a6, b6⟩ := scoreStep_fst_bounds c6 s6 _ a5 b5
  obtain ⟨a7, b7⟩ := scoreStep_fst_bounds c7 s7 _ a6 b6
  obtain ⟨a8, b8⟩ := scoreStep_fst_bounds c8 s8 _ a7 b7
  obtain ⟨a9, b9⟩ := scoreStep_fst_bounds c9 s9 _ a8 b8
  exact ⟨a9, by omega⟩

lemma assess_risks_eq (z : String) (f : Int) (a : Option ℚ) :
    assess_risks z f a =
      ((if z = "distress" then "Critical"
        else if f ≤ 3 then "High"
        else if (match a with
                 | some x => decide ((0.15 : ℚ) < x)
                 | none => false) then "Medium"
        else "Low"),
       (if z = "distress" then ["Bankruptcy Risk"] else []) ++
       (if f ≤ 3 then ["Weak Fundamentals"] else []) ++
       (if (match a with
            | some x => decide ((0.15 : ℚ) < x)
            | none => false) then ["Low Earnings Quality"] else [])) := by
  unfold assess_risks
  by_cases h1 : z = "distress" <;> by_cases h2 : f ≤ 3 <;>
    rcases h3 : (match a with
                 | some x => decide ((0.15 : ℚ) < x)
                 | none => false) <;>
      simp [h1, h2, h3]

lemma assess_risks_critical_iff (z : String) (f : Int) (a : Option ℚ) :
    (assess_risks z f a).1 = "Critical" ↔ z = "distress" := by
  rw [assess_risks_eq]
  by_cases h1 : z = "distress" <;> by_cases h2 : f ≤ 3 <;>
    rcases h3 : (match a with
                 | some x => decide ((0.15 : ℚ) < x)
                 | none => false) <;>
      simp [h1, h2, h3]

/-- C2: for positive total assets and current liabilities the Altman Z-Score
is exactly the weighted sum of the five ratios, with the D term zeroed on a
nonpositive liabilities denominator; the score is None exactly when a
falsy (zero) total_assets or current_liabilities is supplied; and the zone
classification is the step function with boundaries at 1.81 and 2.99, the
endpoint 1.81 classified grey and 2.99 classified safe. -/
theorem altman_z_formula_and_zone :
    (∀ d : FinancialMetricsInput, 0 < d.total_assets → 0 < d.current_liabilities →
      calculate_altman_z_score d =
        some (1.2 * ((d.current_assets - d.current_liabilities) / d.total_assets) +
              1.4 * (d.retained_earnings / d.total_assets) +
              3.3 * (d.ebit / d.total_assets) +
              0.6 * (if 0 < d.long_term_debt + d.current_liabilities then
                       d.market_cap / (d.long_term_debt + d.current_liabilities)
                     else 0) +
              1.0 * (d.revenue / d.total_assets))) ∧
    (∀ d : FinancialMetricsInput, d.total_assets = 0 ∨ d.current_liabilities = 0 →
      calculate_altman_z_score d = none) ∧
    (∀ z : ℚ, (classify_altman_zone z = "distress" ↔ z < 1.81) ∧
              (classify_altman_zone z = "grey" ↔ 1.81 ≤ z ∧ z < 2.99) ∧
              (classify_altman_zone z = "safe" ↔ 2.99 ≤ z)) ∧
    classify_altman_zone 1.81 = "grey" ∧ classify_altman_zone 2.99 = "safe" := by
  refine ⟨?_, ?_, ?_, ?_, ?_⟩
  · intro d h1 h2
    unfold calculate_altman_z_score
    rw [if_neg (by push_neg; exact ⟨ne_of_gt h1, ne_of_gt h2⟩)]
  · intro d h
    unfold calculate_altman_z_score
    rw [if_pos h]
  · intro z
    unfold classify_altman_zone
    refine ⟨?_, ?_, ?_⟩ <;> split_ifs with h1 h2 <;> simp_all <;> try linarith
  · unfold classify_altman_zone; norm_num
  · unfold classify_altman_zone; norm_num

/-- Witness for C2: the worked scenario of the spec evaluates to 917/225
(about 4.076) and lands in the safe zone; the all-zero input yields None. -/
theorem altman_z_formula_and_zone_witness :
    calculate_altman_z_score zScenarioIn = some (917 / 225) ∧
    classify_altman_zone (917 / 225) = "safe" ∧
    calculate_altman_z_score baseInput = none := by
  refine ⟨?_, ?_, ?_⟩
  · have h := altman_z_formula_and_zone.1 zScenarioIn
      (by norm_num [zScenarioIn, baseInput]) (by norm_num [zScenarioIn, baseInput])
    rw [h]; norm_num [zScenarioIn, baseInput]
  · exact (altman_z_formula_and_zone.2.2.1 (917 / 225)).2.2.mpr (by norm_num)
  · exact altman_z_formula_and_zone.2.1 baseInput (Or.inl (by norm_num [baseInput]))

/-- C9: interest coverage is None exactly when interest_expense is zero, and
otherwise equals ebit divided by the absolute interest expense; in particular
the None case holds whatever ebit is. -/
theorem interest_coverage_null_iff :
    (∀ d : FinancialMetricsInput,
      calculate_interest_coverage d = none ↔ d.interest_expense = 0) ∧
    (∀ d : FinancialMetricsInput, d.interest_expense ≠ 0 →
      calculate_interest_coverage d = some (d.ebit / |d.interest_expense|)) := by
  constructor
  · intro d
    unfold calculate_interest_coverage
    by_cases h : |d.interest_expense| = 0
    · simp [h, abs_eq_zero.mp h]
    · rw [if_neg h]
      simp only [reduceCtorEq, false_iff]
      exact fun hc => h (by rw [hc]; exact abs_zero)
  · intro d h
    unfold calculate_interest_coverage
    rw [if_neg (fun hc => h (abs_eq_zero.mp hc))]

/-- Witness for C9: ebit 12 with interest expense -4 gives coverage 3. -/
theorem interest_coverage_null_iff_witness :
    icrIn.interest_expense ≠ 0 ∧ calculate_interest_coverage icrIn = some 3 ∧
    calculate_interest_coverage baseInput = none := by
  have hne : icrIn.interest_expense ≠ 0 := by norm_num [icrIn, baseInput]
  refine ⟨hne, ?_, ?_⟩
  · rw [interest_coverage_null_iff.2 icrIn hne]
    norm_num [icrIn, baseInput]
  · exact (interest_coverage_null_iff.1 baseInput).mpr (by norm_num [baseInput])

/-- C8: assess_risks behaves exactly as the ordered escalation starting from
Low: distress forces Critical with the Bankruptcy Risk factor, a Piotroski
score of at most 3 raises the level to High unless it is already Critical,
accruals above 0.15 raises it to Medium only when it is still Low, the factor
list is accumulated in that fixed order, and a Critical level is never
downgraded by the later checks. -/
theorem assess_risks_order_and_escalation :
    (∀ (z : String) (f : Int) (a : Option ℚ),
      assess_risks z f a =
        ((if z = "distress" then "Critical"
          else if f ≤ 3 then "High"
          else if (match a with
                   | some x => decide ((0.15 : ℚ) < x)
                   | none => false) then "Medium"
          else "Low"),
         (if z = "distress" then ["Bankruptcy Risk"] else []) ++
         (if f ≤ 3 then ["Weak Fundamentals"] else []) ++
         (if (match a with
              | some x => decide ((0.15 : ℚ) < x)
              | none => false) then ["Low Earnings Quality"] else []))) ∧
    (∀ (z : String) (f : Int) (a : Option ℚ), z = "distress" →
      (assess_risks z f a).1 = "Critical") := by
  refine ⟨assess_risks_eq, ?_⟩
  intro z f a h
  exact (assess_risks_critical_iff z f a).mpr h

/-- Witness for C8: a distressed zone with the worst Piotroski score and bad
accruals still reports Critical, with all three factors in order. -/
theorem assess_risks_order_and_escalation_witness :
    (assess_risks "distress" 2 (some 1)).1 = "Critical" ∧
    assess_risks "distress" 2 (some 1) =
      ("Critical", ["Bankruptcy Risk", "Weak Fundamentals", "Low Earnings Quality"]) := by
  constructor
  · exact assess_risks_order_and_escalation.2 "distress" 2 (some 1) rfl
  · rw [assess_risks_order_and_escalation.1 "distress" 2 (some 1)]
    norm_num

/-- C3 counterexample: an input whose prior-period fields are all present
(prev_total_assets equal to 0.0, prev_long_term_debt equal to 1.0) makes
calculate_piotroski_f_score raise a ZeroDivisionError in the leverage step,
so it neither returns a score in the interval from 0 to 9 nor any value at
all. -/
theorem piotroski_zero_prev_assets_raises :
    piotErrIn.prev_revenue.isSome ∧ piotErrIn.prev_operating_income.isSome ∧
    piotErrIn.prev_net_income.isSome ∧ piotErrIn.prev_total_assets.isSome ∧
    piotErrIn.prev_current_assets.isSome ∧ piotErrIn.prev_current_liabilities.isSome ∧
    piotErrIn.prev_inventory.isSome ∧ piotErrIn.prev_long_term_debt.isSome ∧
    calculate_piotroski_f_score piotErrIn = Except.error () := by
  refine ⟨rfl, rfl, rfl, rfl, rfl, rfl, rfl, rfl, ?_⟩
  simp only [calculate_piotroski_f_score, piotErrIn, baseInput, exceptBind_ok,
    exceptBind_err]
  norm_num

/-- C3 amended: when the prior-period fields are all present and
prev_total_assets is nonzero, the F-Score computation returns normally with a
score between 0 and 9; when prev_total_assets is absent the result is exactly
the zero score with the single fixed insufficient-data reason (the code
string is the Japanese データ不足). -/
theorem piotroski_amended_bounds :
    (∀ (d : FinancialMetricsInput) (pr poi pni pta pca pcl pinv pltd : ℚ),
      d.prev_revenue = some pr → d.prev_operating_income = some poi →
      d.prev_net_income = some pni → d.prev_total_assets = some pta →
      d.prev_current_assets = some pca → d.prev_current_liabilities = some pcl →
      d.prev_inventory = some pinv → d.prev_long_term_debt = some pltd →
      pta ≠ 0 →
      ∃ p, calculate_piotroski_f_score d = Except.ok p ∧ 0 ≤ p.1 ∧ p.1 ≤ 9) ∧
    (∀ d : FinancialMetricsInput, d.prev_total_assets = none →
      calculate_piotroski_f_score d = Except.ok (0, ["データ不足"])) := by
  constructor
  · intro d pr poi pni pta pca pcl pinv pltd h1 h2 h3 h4 h5 h6 h7 h8 h9
    by_cases hpcl : pcl = 0 <;> by_cases hpr : pr = 0 <;>
      simp only [calculate_piotroski_f_score, h1, h2, h3, h4, h5, h6, h8, h9, hpcl,
        hpr, exceptBind_ok, exceptBind_err, ne_eq, not_false_eq_true, if_true,
        if_false, ite_true, ite_false, not_true_eq_false] <;>
      exact ⟨_, rfl, (nine_steps_bounds _ _ _ _ _ _ _ _ _ _ _ _ _ _ _ _ _ _).1,
        (nine_steps_bounds _ _ _ _ _ _ _ _ _ _ _ _ _ _ _ _ _ _).2⟩
  · intro d h
    simp only [calculate_piotroski_f_score, h]

/-- Witness for C3 amended: the fully populated input with nonzero prior total
assets scores within bounds, and dropping prev_total_assets yields the fixed
insufficient-data result. -/
theorem piotroski_amended_bounds_witness :
    (∃ p, calculate_piotroski_f_score piotOkIn = Except.ok p ∧ 0 ≤ p.1 ∧ p.1 ≤ 9) ∧
    calculate_piotroski_f_score baseInput = Except.ok (0, ["データ不足"]) := by
  constructor
  · exact piotroski_amended_bounds.1 piotOkIn 9 2 1 50 5 3 1 1
      rfl rfl rfl rfl rfl rfl rfl rfl (by norm_num)
  · exact piotroski_amended_bounds.2 baseInput rfl

lemma zZoneUsed_distress (z : Option ℚ) (h : zZoneUsed z = "distress") :
    ∃ q, z = some q ∧ classify_altman_zone q = "distress" := by
  rcases z with _ | q
  · simp [zZoneUsed] at h
  · simp only [zZoneUsed] at h
    by_cases h0 : q ≠ 0
    · rw [if_pos h0] at h
      exact ⟨q, rfl, h⟩
    · rw [if_neg h0] at h
      simp at h

lemma statusBlock_of_distress (r : RatioSet) (gap : Option ℚ)
    (h : zZoneUsed r.z_score = "distress") : statusBlock r gap = ("Sell", false) := by
  obtain ⟨q, hq, hcl⟩ := zZoneUsed_distress _ h
  unfold statusBlock
  rw [hq]
  simp only [hcl, if_pos rfl]
  split_ifs <;> simp_all

lemma verdictCascade_critical (st ex rd : String) (gap : Option ℚ) (good : Bool) :
    verdictCascade st ex "Critical" rd gap good =
      ("Avoid", good, ["⚠️回避推奨: " ++ rd]) := by
  unfold verdictCascade
  rw [if_pos rfl]

lemma analyze_risk_level (r : RatioSet) :
    (analyze r).risk_level =
      (assess_risks (zZoneUsed r.z_score) r.f_score (some r.accruals)).1 := rfl

lemma analyze_z_zone (r : RatioSet) :
    (analyze r).z_zone = zZoneUsed r.z_score := rfl

lemma analyze_state (r : RatioSet) :
    (analyze r).state =
      diagnose_corporate_state r.f_score (zZoneUsed r.z_score)
        r.implied_g_fcf.isSome := rfl

lemma analyze_expectation (r : RatioSet) :
    (analyze r).expectation_structure =
      diagnose_expectation (calculate_reality_gap r.implied_g_rev r.actual_g_rev)
        r.implied_g_rev r.implied_g_fcf.isSome := rfl

lemma analyze_status (r : RatioSet) :
    (analyze r).status =
      (verdictCascade
        (diagnose_corporate_state r.f_score (zZoneUsed r.z_score)
          r.implied_g_fcf.isSome)
        (diagnose_expectation (calculate_reality_gap r.implied_g_rev r.actual_g_rev)
          r.implied_g_rev r.implied_g_fcf.isSome)
        (assess_risks (zZoneUsed r.z_score) r.f_score (some r.accruals)).1
        (String.intercalate ", "
          (assess_risks (zZoneUsed r.z_score) r.f_score (some r.accruals)).2)
        (calculate_reality_gap r.implied_g_rev r.actual_g_rev)
        (statusBlock r (calculate_reality_gap r.implied_g_rev r.actual_g_rev)).2).1 := rfl

lemma analyze_good (r : RatioSet) :
    (analyze r).is_good_buy =
      (verdictCascade
        (diagnose_corporate_state r.f_score (zZoneUsed r.z_score)
          r.implied_g_fcf.isSome)
        (diagnose_expectation (calculate_reality_gap r.implied_g_rev r.actual_g_rev)
          r.implied_g_rev r.implied_g_fcf.isSome)
        (assess_risks (zZoneUsed r.z_score) r.f_score (some r.accruals)).1
        (String.intercalate ", "
          (assess_risks (zZoneUsed r.z_score) r.f_score (some r.accruals)).2)
        (calculate_reality_gap r.implied_g_rev r.actual_g_rev)
        (statusBlock r (calculate_reality_gap r.implied_g_rev r.actual_g_rev)).2).2.1 := rfl

/-- C1: whenever the assessed risk level of an analysis run is Critical, the
verdict cascade yields the Avoid label with is_good_buy false, for every
combination of the remaining ratio inputs; moreover the cascade alone maps a
Critical risk level to Avoid for every state and expectation value, so a
Critical plus Underestimated plus Cash Generator combination can never
produce Strong Buy. -/
theorem critical_risk_forces_avoid :
    (∀ r : RatioSet, (analyze r).risk_level = "Critical" →
      (analyze r).status = "Avoid" ∧ (analyze r).is_good_buy = false) ∧
    (∀ (state expectation risk_details : String) (gap : Option ℚ) (good : Bool),
      (verdictCascade state expectation "Critical" risk_details gap good).1 =
        "Avoid") := by
  constructor
  · intro r h
    rw [analyze_risk_level] at h
    have hz := (assess_risks_critical_iff _ _ _).mp h
    have hsb := statusBlock_of_distress r
      (calculate_reality_gap r.implied_g_rev r.actual_g_rev) hz
    constructor
    · rw [analyze_status, h, verdictCascade_critical]
    · rw [analyze_good, h, verdictCascade_critical, hsb]
  · intro state expectation risk_details gap good
    rw [verdictCascade_critical]

/-- Witness for C1: a high F-Score company with a deeply negative Z-Score is
rated Critical and lands on Avoid with no buy signal, and the cascade maps a
Critical Underestimated Cash Generator combination to Avoid. -/
theorem critical_risk_forces_avoid_witness :
    (analyze criticalR).risk_level = "Critical" ∧
    (analyze criticalR).status = "Avoid" ∧
    (analyze criticalR).is_good_buy = false ∧
    (verdictCascade "Cash Generator" "Underestimated" "Critical" "Bankruptcy Risk"
      (some (-20)) false).1 = "Avoid" := by
  have hc : (analyze criticalR).risk_level = "Critical" := by
    rw [analyze_risk_level]
    have hz : zZoneUsed criticalR.z_score = "distress" := by
      simp only [criticalR, zZoneUsed]
      norm_num [classify_altman_zone]
    rw [hz, assess_risks_eq]
    simp
  exact ⟨hc, (critical_risk_forces_avoid.1 criticalR hc).1,
    (critical_risk_forces_avoid.1 criticalR hc).2,
    critical_risk_forces_avoid.2 "Cash Generator" "Underestimated" "Bankruptcy Risk"
      (some (-20)) false⟩

/-- C10: the pipeline maps a None or exactly-zero Z-Score to the grey zone
(although the bare classifier would place 0.0 in distress), so such an input
is never diagnosed Financial Distress and never reaches the Critical risk
level through the bankruptcy check. -/
theorem zero_or_null_z_score_grey :
    classify_altman_zone 0 = "distress" ∧
    (∀ r : RatioSet, r.z_score = none ∨ r.z_score = some 0 →
      (analyze r).z_zone = "grey" ∧ (analyze r).state ≠ "Financial Distress" ∧
      (analyze r).risk_level ≠ "Critical") := by
  constructor
  · unfold classify_altman_zone; norm_num
  · intro r h
    have hz : zZoneUsed r.z_score = "grey" := by
      rcases h with h | h <;> simp [zZoneUsed, h]
    refine ⟨?_, ?_, ?_⟩
    · rw [analyze_z_zone, hz]
    · rw [analyze_state, hz]
      unfold diagnose_corporate_state
      split_ifs <;> simp_all
    · rw [analyze_risk_level]
      intro hc
      have hd := (assess_risks_critical_iff _ _ _).mp hc
      rw [hz] at hd
      simp at hd

/-- Witness for C10: ratio inputs with a computed Z-Score of exactly zero. -/
theorem zero_or_null_z_score_grey_witness :
    zeroZR.z_score = some 0 ∧ (analyze zeroZR).z_zone = "grey" ∧
    (analyze zeroZR).state ≠ "Financial Distress" ∧
    (analyze zeroZR).risk_level ≠ "Critical" := by
  have h := zero_or_null_z_score_grey.2 zeroZR (Or.inr rfl)
  exact ⟨rfl, h.1, h.2.1, h.2.2⟩

/-- C4 (TagDetector modelled from the spec): the stored tag_single_engine
boolean of an analysis run holds exactly when the expectation structure
diagnosed in the same run is Single Engine. -/
theorem stored_single_engine_tag_iff :
    ∀ r : RatioSet, storedTagSingleEngine r = true ↔
      (analyze r).expectation_structure = "Single Engine" := by
  intro r
  unfold storedTagSingleEngine detect_tag_single_engine
  simp

/-- C5 counterexample: with a zero market cap and a positive free cash flow
the pipeline hands has_fcf equal to false to the diagnosis passes although
operating_cf plus investing_cf is positive. -/
theorem pipeline_has_fcf_cex :
    pipelineHasFcf fcfNoCapIn = false ∧
    0 < fcfNoCapIn.operating_cf + fcfNoCapIn.investing_cf := by
  constructor
  · simp only [pipelineHasFcf, calculate_implied_growth_rate]
    norm_num [fcfNoCapIn, baseInput]
  · norm_num [fcfNoCapIn, baseInput]

/-- C5 amended: the has_fcf flag passed by the pipeline equals the conjunction
of a positive market cap and a positive operating_cf plus investing_cf (the
non-nullness of the FCF-implied growth rate), not the cash-flow sign alone. -/
theorem pipeline_has_fcf_amended :
    ∀ d : FinancialMetricsInput,
      pipelineHasFcf d = true ↔
        (0 < d.market_cap ∧ 0 < d.operating_cf + d.investing_cf) := by
  intro d
  unfold pipelineHasFcf calculate_implied_growth_rate
  by_cases h1 : d.market_cap ≤ 0
  · simp only [h1, if_true, Option.isSome_none, Bool.false_eq_true, false_iff, not_and]
    intro hmc
    linarith
  · push_neg at h1
    rw [if_neg (not_le.mpr h1)]
    by_cases h2 : d.operating_cf + d.investing_cf ≤ 0
    · rw [if_pos h2]
      simp only [Option.isSome_none, Bool.false_eq_true, false_iff, not_and]
      intro _
      linarith
    · push_neg at h2
      rw [if_neg (not_le.mpr h2)]
      simp [h1, h2]

lemma totalValue_nil : totalValue [] = 0 := rfl

lemma totalValue_cons (h : Holding) (hs : List Holding) :
    totalValue (h :: hs) = h.market_value + totalValue hs := by
  simp [totalValue]

lemma exposureSum_nil (total : ℚ) (sel : Holding → Bool) :
    exposureSum total [] sel = 0 := rfl

lemma exposureSum_cons (total : ℚ) (h : Holding) (hs : List Holding)
    (sel : Holding → Bool) :
    exposureSum total (h :: hs) sel =
      (if sel h then weightOf total h else 0) + exposureSum total hs sel := by
  simp [exposureSum]

lemma assignCat_cases (t : Tags) :
    assignCat t = "Risk" ∨ assignCat t = "Speculative" ∨ assignCat t = "Quality" ∨
    assignCat t = "Safety" ∨ assignCat t = "Neutral" := by
  unfold assignCat
  split_ifs <;> simp

lemma weight_sum (total : ℚ) (hs : List Holding) :
    (hs.map (weightOf total)).sum = totalValue hs / total * 100 := by
  induction hs with
  | nil => simp [totalValue]
  | cons h hs ih =>
      rw [List.map_cons, List.sum_cons, ih, totalValue_cons, add_div, add_mul]
      rfl

lemma category_sum5 (total : ℚ) (hs : List Holding) :
    exposureSum total hs (fun h => decide (assignCat h.tags = "Safety")) +
    exposureSum total hs (fun h => decide (assignCat h.tags = "Quality")) +
    exposureSum total hs (fun h => decide (assignCat h.tags = "Speculative")) +
    exposureSum total hs (fun h => decide (assignCat h.tags = "Risk")) +
    exposureSum total hs (fun h => decide (assignCat h.tags = "Neutral")) =
    (hs.map (weightOf total)).sum := by
  induction hs with
  | nil => simp [exposureSum]
  | cons h hs ih =>
      simp only [exposureSum_cons, List.map_cons, List.sum_cons]
      rcases assignCat_cases h.tags with hc | hc | hc | hc | hc <;>
        simp only [hc] <;> simp <;> linarith [ih]

lemma exposureSum_nonneg (total : ℚ) (hs : List Holding) (sel : Holding → Bool)
    (hmv : ∀ h ∈ hs, 0 ≤ h.market_value) (htot : 0 < total) :
    0 ≤ exposureSum total hs sel := by
  induction hs with
  | nil => simp [exposureSum]
  | cons h hs ih =>
      rw [exposureSum_cons]
      have h1 : 0 ≤ weightOf total h := by
        unfold weightOf
        have := hmv h (List.mem_cons_self h hs)
        positivity
      have h2 : 0 ≤ exposureSum total hs sel :=
        ih fun x hx => hmv x (List.mem_cons_of_mem h hx)
      split_ifs <;> linarith

lemma exposureSum_le_sum (total : ℚ) (hs : List Holding) (sel : Holding → Bool)
    (hmv : ∀ h ∈ hs, 0 ≤ h.market_value) (htot : 0 < total) :
    exposureSum total hs sel ≤ (hs.map (weightOf total)).sum := by
  induction hs with
  | nil => simp [exposureSum]
  | cons h hs ih =>
      rw [exposureSum_cons, List.map_cons, List.sum_cons]
      have h1 : 0 ≤ weightOf total h := by
        unfold weightOf
        have := hmv h (List.mem_cons_self h hs)
        positivity
      have h2 := ih fun x hx => hmv x (List.mem_cons_of_mem h hx)
      split_ifs <;> linarith

lemma floor_clamp_bounds (s : ℚ) :
    0 ≤ ⌊max 0 (min 100 s)⌋ ∧ ⌊max 0 (min 100 s)⌋ ≤ 100 := by
  constructor
  · exact Int.floor_nonneg.mpr (le_max_left _ _)
  · calc ⌊max (0 : ℚ) (min 100 s)⌋ ≤ ⌊(100 : ℚ)⌋ :=
        Int.floor_le_floor (max_le (by norm_num) (min_le_left _ _))
      _ = 100 := by norm_num

/-- C6: whenever the computed total market value of the collected holdings is
zero (in particular for an empty portfolio or one whose items all lack a
diagnosis), the analyzer returns the fixed empty report with zero total,
health score 0, the fixed empty-portfolio message and empty exposure maps,
with no division performed. -/
theorem empty_portfolio_fixed_report :
    ∀ items : List PortfolioItemIn,
      totalValue (collectHoldings items) = 0 →
      portfolioAnalyze items = emptyResult := by
  intro items h
  simp only [portfolioAnalyze]
  rw [if_pos h]

/-- Witness for C6: the empty portfolio and a one-item portfolio whose stock
was never analyzed both produce the fixed empty report. -/
theorem empty_portfolio_fixed_report_witness :
    totalValue (collectHoldings ([] : List PortfolioItemIn)) = 0 ∧
    portfolioAnalyze ([] : List PortfolioItemIn) = emptyResult ∧
    portfolioAnalyze undiagnosedItems = emptyResult := by
  refine ⟨rfl, ?_, ?_⟩
  · exact empty_portfolio_fixed_report [] rfl
  · exact empty_portfolio_fixed_report undiagnosedItems rfl

lemma assignCat_iffs (t : Tags) :
    (assignCat t = "Risk" ↔
      (t.tag_zombie || t.tag_fragile || t.tag_accounting_risk) = true) ∧
    (assignCat t = "Speculative" ↔
      ((t.tag_zombie || t.tag_fragile || t.tag_accounting_risk) = false ∧
       (t.tag_single_engine || t.tag_high_volatility || t.tag_turnaround) = true)) ∧
    (assignCat t = "Quality" ↔
      ((t.tag_zombie || t.tag_fragile || t.tag_accounting_risk) = false ∧
       (t.tag_single_engine || t.tag_high_volatility || t.tag_turnaround) = false ∧
       t.tag_quality_growth = true)) ∧
    (assignCat t = "Safety" ↔
      ((t.tag_zombie || t.tag_fragile || t.tag_accounting_risk) = false ∧
       (t.tag_single_engine || t.tag_high_volatility || t.tag_turnaround) = false ∧
       t.tag_quality_growth = false ∧
       (t.tag_safety_shield || t.tag_institutional || t.tag_cash_cow) = true)) ∧
    (assignCat t = "Neutral" ↔
      ((t.tag_zombie || t.tag_fragile || t.tag_accounting_risk) = false ∧
       (t.tag_single_engine || t.tag_high_volatility || t.tag_turnaround) = false ∧
       t.tag_quality_growth = false ∧
       (t.tag_safety_shield || t.tag_institutional || t.tag_cash_cow) = false)) := by
  unfold assignCat
  split_ifs with h1 h2 h3 h4 <;> refine ⟨?_, ?_, ?_, ?_, ?_⟩ <;> simp_all <;>
    (intros; simp_all)

lemma collectHoldings_shortItems :
    collectHoldings shortItems =
      [{ market_value := 200, tags := { noTags with tag_single_engine := true } },
       { market_value := -100, tags := noTags }] := by
  simp only [collectHoldings, shortItems, List.filterMap_cons, List.filterMap_nil,
    Option.map_some', Option.getD_some]
  norm_num

lemma collectHoldings_qualityItems :
    collectHoldings qualityItems =
      [{ market_value := 50, tags := { noTags with tag_quality_growth := true } }] := by
  simp only [collectHoldings, qualityItems, List.filterMap_cons, List.filterMap_nil,
    Option.map_some', Option.getD_some]
  norm_num

/-- C7 counterexample: a portfolio with positive total value in which every
holding has a diagnosis, yet the tag_single_engine exposure equals 200,
outside the interval from 0 to 100 (the second holding is a short position
with a negative quantity, which the data model permits). -/
theorem tag_exposure_can_exceed_100 :
    0 < totalValue (collectHoldings shortItems) ∧
    (∀ it ∈ shortItems, it.analysis.isSome) ∧
    ("tag_single_engine", (200 : ℚ)) ∈ (portfolioAnalyze shortItems).tag_exposure ∧
    ¬((200 : ℚ) ≤ 100) := by
  have htot : totalValue (collectHoldings shortItems) = 100 := by
    rw [collectHoldings_shortItems]
    norm_num [totalValue]
  refine ⟨by rw [htot]; norm_num, ?_, ?_, by norm_num⟩
  · intro it hit
    simp only [shortItems, List.mem_cons, List.not_mem_nil, or_false] at hit
    rcases hit with rfl | rfl <;> rfl
  · have hte : (portfolioAnalyze shortItems).tag_exposure =
        tagExposure (totalValue (collectHoldings shortItems))
          (collectHoldings shortItems) := by
      simp only [portfolioAnalyze]
      rw [if_neg (by rw [htot]; norm_num)]
    rw [hte, htot, collectHoldings_shortItems]
    have hval : exposureSum 100
        [{ market_value := 200, tags := { noTags with tag_single_engine := true } },
         { market_value := -100, tags := noTags }]
        (fun h => h.tags.tag_single_engine) = 200 := by
      norm_num [exposureSum, weightOf, noTags]
    simp only [tagExposure, List.mem_cons]
    refine Or.inr (Or.inr (Or.inr (Or.inr (Or.inl ?_))))
    rw [hval]

/-- C7 amended: with a positive total value every holding is assigned exactly
one category by the fixed priority Risk before Speculative before Quality
before Safety before Neutral, the category exposures sum to exactly 100, and
the health score is an integer between 0 and 100; the bound from 0 to 100 on
every tag exposure additionally needs every collected holding to have a
nonnegative market value, which the counterexample shows is necessary. -/
theorem portfolio_exposure_amended :
    ∀ items : List PortfolioItemIn,
      0 < totalValue (collectHoldings items) →
      (∀ t : Tags,
        (assignCat t = "Risk" ↔
          (t.tag_zombie || t.tag_fragile || t.tag_accounting_risk) = true) ∧
        (assignCat t = "Speculative" ↔
          ((t.tag_zombie || t.tag_fragile || t.tag_accounting_risk) = false ∧
           (t.tag_single_engine || t.tag_high_volatility || t.tag_turnaround) = true)) ∧
        (assignCat t = "Quality" ↔
          ((t.tag_zombie || t.tag_fragile || t.tag_accounting_risk) = false ∧
           (t.tag_single_engine || t.tag_high_volatility || t.tag_turnaround) = false ∧
           t.tag_quality_growth = true)) ∧
        (assignCat t = "Safety" ↔
          ((t.tag_zombie || t.tag_fragile || t.tag_accounting_risk) = false ∧
           (t.tag_single_engine || t.tag_high_volatility || t.tag_turnaround) = false ∧
           t.tag_quality_growth = false ∧
           (t.tag_safety_shield || t.tag_institutional || t.tag_cash_cow) = true)) ∧
        (assignCat t = "Neutral" ↔
          ((t.tag_zombie || t.tag_fragile || t.tag_accounting_risk) = false ∧
           (t.tag_single_engine || t.tag_high_volatility || t.tag_turnaround) = false ∧
           t.tag_quality_growth = false ∧
           (t.tag_safety_shield || t.tag_institutional || t.tag_cash_cow) = false))) ∧
      ((portfolioAnalyze items).category_exposure.map Prod.snd).sum = 100 ∧
      ((∀ h ∈ collectHoldings items, 0 ≤ h.market_value) →
        ∀ p ∈ (portfolioAnalyze items).tag_exposure, 0 ≤ p.2 ∧ p.2 ≤ 100) ∧
      0 ≤ (portfolioAnalyze items).health_score ∧
      (portfolioAnalyze items).health_score ≤ 100 := by
  intro items htot
  have hne : ¬ totalValue (collectHoldings items) = 0 := by
    exact fun hc => absurd hc (ne_of_gt htot)
  have hce : (portfolioAnalyze items).category_exposure =
      categoryExposure (totalValue (collectHoldings items))
        (collectHoldings items) := by
    simp only [portfolioAnalyze]
    rw [if_neg hne]
  have hte : (portfolioAnalyze items).tag_exposure =
      tagExposure (totalValue (collectHoldings items)) (collectHoldings items) := by
    simp only [portfolioAnalyze]
    rw [if_neg hne]
  have hfull : (List.map (weightOf (totalValue (collectHoldings items)))
      (collectHoldings items)).sum = 100 := by
    rw [weight_sum, div_self hne, one_mul]
  have hhealth : ∃ s : ℚ,
      (portfolioAnalyze items).health_score = ⌊max 0 (min 100 s)⌋ := by
    simp only [portfolioAnalyze]
    rw [if_neg hne]
    exact ⟨_, rfl⟩
  obtain ⟨s, hsc⟩ := hhealth
  refine ⟨fun t => assignCat_iffs t, ?_, ?_, ?_, ?_⟩
  · rw [hce]
    simp only [categoryExposure, List.map_cons, List.map_nil, List.sum_cons,
      List.sum_nil, add_zero]
    have h5 := category_sum5 (totalValue (collectHoldings items))
      (collectHoldings items)
    rw [hfull] at h5
    linarith
  · intro hmv p hp
    rw [hte] at hp
    have hb : ∀ sel : Holding → Bool,
        0 ≤ exposureSum (totalValue (collectHoldings items))
              (collectHoldings items) sel ∧
        exposureSum (totalValue (collectHoldings items))
              (collectHoldings items) sel ≤ 100 := by
      intro sel
      refine ⟨exposureSum_nonneg _ _ _ hmv htot, ?_⟩
      calc exposureSum (totalValue (collectHoldings items))
            (collectHoldings items) sel ≤
          (List.map (weightOf (totalValue (collectHoldings items)))
            (collectHoldings items)).sum := exposureSum_le_sum _ _ _ hmv htot
        _ = 100 := hfull
    simp only [tagExposure, List.mem_cons, List.not_mem_nil, or_false] at hp
    rcases hp with rfl | rfl | rfl | rfl | rfl | rfl | rfl | rfl | rfl | rfl | rfl <;>
      exact hb _
  · rw [hsc]
    exact (floor_clamp_bounds s).1
  · rw [hsc]
    exact (floor_clamp_bounds s).2

/-- Witness for C7 amended: a single fully diagnosed quality holding of
positive value has category exposures summing to 100, all tag exposures
within bounds and a health score within bounds. -/
theorem portfolio_exposure_amended_witness :
    0 < totalValue (collectHoldings qualityItems) ∧
    ((portfolioAnalyze qualityItems).category_exposure.map Prod.snd).sum = 100 ∧
    (∀ p ∈ (portfolioAnalyze qualityItems).tag_exposure, 0 ≤ p.2 ∧ p.2 ≤ 100) ∧
    0 ≤ (portfolioAnalyze qualityItems).health_score ∧
    (portfolioAnalyze qualityItems).health_score ≤ 100 := by
  have hpos : 0 < totalValue (collectHoldings qualityItems) := by
    rw [collectHoldings_qualityItems]
    norm_num [totalValue]
  have h := portfolio_exposure_amended qualityItems hpos
  refine ⟨hpos, h.2.1, ?_, h.2.2.2.1, h.2.2.2.2⟩
  apply h.2.2.1
  intro hold hh
  rw [collectHoldings_qualityItems] at hh
  simp only [List.mem_cons, List.not_mem_nil, or_false] at hh
  rw [hh]
  norm_num
